import Mathlib

/-!
Shallow embedding of the EduChain backend (src/main.py with src/schemas.py,
plus the free-text discovery endpoint of src/backend/main.py) and proofs of
the specified properties of its trust-score engine, donation lifecycle,
KYC upsert, proof submission and discovery query.

Modelling conventions:
* MongoDB collections are association lists `List (Nat × record)` paired with
  a fresh-id counter `nextId`; `create_document` (the store adapter of
  src/backend/database.py, which the root main.py imports in its own
  `database` module of the same design, spec §4.1) appends a record under the
  fresh id and bumps the counter; Mongo's `update_one` updates the first
  record matching the filter (Mongo `_id`s are unique, which the theorems
  carry as a `Nodup` / freshness hypothesis where it matters).
* Python floats are modelled as `ℚ`.  The trust-score arithmetic only ever
  handles integer-valued floats, on which every operation the code performs
  (integer constants, addition, `min`, `max`, comparison) is exact in IEEE
  double, so that arithmetic is carried out in `ℤ` and cast to `ℚ` at the
  `float(...)` return; donation amounts stay in `ℚ` and are only compared.
* FastAPI handlers that can raise `HTTPException` are modelled as functions
  returning the (possibly unchanged) store together with an
  `Except ApiError` result: raising an exception leaves the store exactly as
  the handler left it at the raise point.
-/

namespace EduChain

/-- KYC document status (schemas.py `KYCDocument.status`). -/
inductive KYCStatus where
  | pending
  | verified
  | rejected
deriving DecidableEq, Repr

/-- Student KYC display status (schemas.py `Student.kyc_status`). -/
inductive StudentKycStatus where
  | not_submitted
  | pending
  | verified
  | rejected
deriving DecidableEq, Repr

/-- Injection of a KYC document status into the student-side status enum,
used when `submit_kyc` copies `payload.status` onto the student record. -/
def KYCStatus.toStudent : KYCStatus → StudentKycStatus
  | .pending => .pending
  | .verified => .verified
  | .rejected => .rejected

/-- Payment gateway (schemas.py `Donation.gateway` literal). -/
inductive Gateway where
  | upi
  | cards
  | netbanking
  | paypal
  | stripe
  | gpay
  | applepay
  | intl_wallet
deriving DecidableEq, Repr

/-- The literal string value of a gateway, as it appears in the request body
and hence in the f-string building the payment reference. -/
def Gateway.str : Gateway → String
  | .upi => "upi"
  | .cards => "cards"
  | .netbanking => "netbanking"
  | .paypal => "paypal"
  | .stripe => "stripe"
  | .gpay => "gpay"
  | .applepay => "applepay"
  | .intl_wallet => "intl_wallet"

/-- Scholarship tier (schemas.py `Donation.scholarship` literal). -/
inductive Scholarship where
  | micro
  | big
deriving DecidableEq, Repr

/-- Donation status literal accepted by the input schema. -/
inductive DonationStatus where
  | created
  | processing
  | succeeded
  | failed
  | refunded
deriving DecidableEq, Repr

/-- String value of a donation status literal as stored in the document. -/
def DonationStatus.str : DonationStatus → String
  | .created => "created"
  | .processing => "processing"
  | .succeeded => "succeeded"
  | .failed => "failed"
  | .refunded => "refunded"

/-- Student record (schemas.py `Student`).  Identifiers are modelled as
`Nat` (Mongo ObjectIds); the server-set `created_at` timestamp is omitted as
no property refers to it. -/
structure Student where
  full_name : String
  email : String
  phone : Option String
  school_name : String
  class_grade : Option String
  address : Option String
  country : Option String
  city : Option String
  location : Option (ℚ × ℚ)
  languages : List String
  trust_score : ℚ
  kyc_status : StudentKycStatus
deriving DecidableEq, Repr

/-- KYC document record (schemas.py `KYCDocument`). -/
structure KYCDocument where
  student_id : Nat
  id_proof_url : String
  student_id_card_url : String
  school_letter_url : Option String
  selfie_url : String
  status : KYCStatus
  remarks : Option String
deriving DecidableEq, Repr

/-- Proof-of-use submission record (schemas.py `ProofSubmission`). -/
structure ProofSubmission where
  student_id : Nat
  title : String
  description : Option String
  amount : Option ℚ
  currency : Option String
  files : List String
  reviewed : Bool
deriving DecidableEq, Repr

/-- Donation request body (schemas.py `Donation`). -/
structure Donation where
  donor_name : Option String
  donor_email : Option String
  student_id : Option Nat
  scholarship : Scholarship
  amount : ℚ
  currency : String
  gateway : Gateway
  status : DonationStatus
  payment_reference : Option String
  blockchain_tx : Option String
  country : Option String
deriving DecidableEq, Repr

/-- Donation document as stored in Mongo.  `status` is a plain string
because the webhook `$set` writes the webhook payload's unvalidated status
string; `gateway_tx` and `reference` are extra fields the webhook `$set`
introduces on the stored document (they are not part of the input schema). -/
structure DonationRecord where
  donor_name : Option String
  donor_email : Option String
  student_id : Option Nat
  scholarship : Scholarship
  amount : ℚ
  currency : String
  gateway : Gateway
  status : String
  payment_reference : Option String
  blockchain_tx : Option String
  country : Option String
  gateway_tx : Option String
  reference : Option String
deriving DecidableEq, Repr

/-- The document inserted for a validated donation request. -/
def Donation.toRecord (d : Donation) : DonationRecord :=
  { donor_name := d.donor_name
    donor_email := d.donor_email
    student_id := d.student_id
    scholarship := d.scholarship
    amount := d.amount
    currency := d.currency
    gateway := d.gateway
    status := d.status.str
    payment_reference := d.payment_reference
    blockchain_tx := d.blockchain_tx
    country := d.country
    gateway_tx := none
    reference := none }

/-- Errors raised by the handlers (`HTTPException` 404 / 400). -/
inductive ApiError where
  | notFound
  | invalidRange
deriving DecidableEq, Repr

/-- The document store: one association list per collection sharing a fresh
identifier counter. -/
structure DB where
  students : List (Nat × Student)
  kycdocs : List (Nat × KYCDocument)
  proofs : List (Nat × ProofSubmission)
  donations : List (Nat × DonationRecord)
  nextId : Nat
deriving DecidableEq, Repr

/-- The empty store. -/
def emptyDB : DB where
  students := []
  kycdocs := []
  proofs := []
  donations := []
  nextId := 0

/-- Mongo `update_one` by `_id`: applies `f` to the first record whose id
matches, leaves everything else untouched (no-op on zero matches). -/
def updateById {α : Type} (l : List (Nat × α)) (i : Nat) (f : α → α) :
    List (Nat × α) :=
  match l with
  | [] => []
  | (j, r) :: rest =>
      if j = i then (j, f r) :: rest else (j, r) :: updateById rest i f

/-- Python's two-argument `min`.  The trust-score arithmetic is carried out
in `ℤ`: every value the Python code manipulates there is an integer-valued
float, on which IEEE addition, `min`, `max` and comparison are exact. -/
def pymin (a b : ℤ) : ℤ := if a ≤ b then a else b

/-- Python's two-argument `max` (first argument wins ties, irrelevant on a
linear order). -/
def pymax (a b : ℤ) : ℤ := if b ≤ a then a else b

/-- The student's KYC document lookup performed by `compute_trust_score`
(`db["kycdocument"].find_one({"student_id": student_id})`). -/
def kycFor (db : DB) (student_id : Nat) : Option (Nat × KYCDocument) :=
  db.kycdocs.find? (fun p => p.2.student_id == student_id)

/-- The student's proof count computed by `compute_trust_score`
(`db["proofsubmission"].count_documents({"student_id": student_id})`). -/
def proofCountFor (db : DB) (student_id : Nat) : Nat :=
  (db.proofs.filter (fun p => p.2.student_id == student_id)).length

/-- The arithmetic of `compute_trust_score` (main.py lines 40-48), as a
function of the looked-up KYC document and proof count: base 10, KYC
existence and status bonuses, `min(30, proofs_count * 5)`, then
`max(0, min(100, score))`. -/
def trustFromParts (kyc : Option (Nat × KYCDocument)) (proofs_count : Nat) :
    ℤ :=
  let score : ℤ := 10
  let score : ℤ :=
    match kyc with
    | none => score
    | some k =>
        let s := score + 30
        match k.2.status with
        | .verified => s + 30
        | .pending => s + 10
        | .rejected => s
  let score := score + pymin 30 ((proofs_count : ℤ) * 5)
  pymax 0 (pymin 100 score)

/-- Function `compute_trust_score(student_id)` (main.py lines 30-48): 404 if the
student does not exist, otherwise the pure score of the current KYC and
proof state; the final `float(...)` is the cast of the integer-valued score
into the float (here: rational) domain. -/
def compute_trust_score (db : DB) (student_id : Nat) : Except ApiError ℚ :=
  match db.students.find? (fun p => p.1 == student_id) with
  | none => .error .notFound
  | some _ =>
      .ok ((trustFromParts (kycFor db student_id) (proofCountFor db student_id) : ℤ) : ℚ)

/-- Modelled directly from the spec's words (spec §4.2): base 10; +30 if a
KYC record exists, a further +30 when verified, else a further +10 when
pending, nothing further when rejected; +5 per proof capped at +30; clamp
to [0, 100].  Used only to compare against `compute_trust_score`. -/
def specTrustScore (kycStatus : Option KYCStatus) (proofCount : Nat) : ℤ :=
  let base : ℤ := 10
  let kycBonus : ℤ :=
    match kycStatus with
    | none => 0
    | some .verified => 30 + 30
    | some .pending => 30 + 10
    | some .rejected => 30
  let proofBonus : ℤ := pymin 30 (5 * (proofCount : ℤ))
  pymax 0 (pymin 100 (base + kycBonus + proofBonus))

/-- Handler `POST /students` (main.py lines 72-78): inserts the validated student
document, then overwrites its `trust_score` with `0.0`; returns the new id. -/
def create_student (db : DB) (student : Student) : DB × Nat :=
  let _id := db.nextId
  let db1 : DB :=
    { db with students := db.students ++ [(_id, student)], nextId := db.nextId + 1 }
  let db2 : DB :=
    { db1 with students := updateById db1.students _id (fun r => { r with trust_score := 0 }) }
  (db2, _id)

/-- Handler `POST /kyc` (main.py lines 90-105): upsert the KYC document keyed by
`student_id`, copy the status onto the student record, recompute and persist
the trust score.  The recompute raises 404 (uncaught) when the student does
not exist, after the KYC document was already persisted. -/
def submit_kyc (db : DB) (payload : KYCDocument) :
    DB × Except ApiError (Nat × ℚ) :=
  let upsert : DB × Nat :=
    match db.kycdocs.find? (fun p => p.2.student_id == payload.student_id) with
    | some existing =>
        ({ db with kycdocs := updateById db.kycdocs existing.1 (fun _ => payload) },
          existing.1)
    | none =>
        ({ db with
            kycdocs := db.kycdocs ++ [(db.nextId, payload)]
            nextId := db.nextId + 1 },
          db.nextId)
  let db1 := upsert.1
  let kyc_id := upsert.2
  let statusUpd := updateById db1.students payload.student_id
    (fun s => { s with kyc_status := payload.status.toStudent })
  let db2 : DB := { db1 with students := statusUpd }
  match compute_trust_score db2 payload.student_id with
  | .error e => (db2, .error e)
  | .ok ts =>
      let scoreUpd := updateById db2.students payload.student_id
        (fun s => { s with trust_score := ts })
      ({ db2 with students := scoreUpd }, .ok (kyc_id, ts))

/-- Handler `POST /proofs` (main.py lines 109-118): persist the proof, then try to
recompute and persist the trust score; any failure of the recompute is
swallowed and reported as a null trust score. -/
def submit_proof (db : DB) (proof : ProofSubmission) :
    DB × (Nat × Option ℚ) :=
  let _id := db.nextId
  let db1 : DB :=
    { db with proofs := db.proofs ++ [(_id, proof)], nextId := db.nextId + 1 }
  match compute_trust_score db1 proof.student_id with
  | .ok ts =>
      let upd := updateById db1.students proof.student_id
        (fun s => { s with trust_score := ts })
      ({ db1 with students := upd }, (_id, some ts))
  | .error _ => (db1, (_id, none))

/-- Response body of `POST /donations/initiate` (main.py
`PaymentIntentResponse`). -/
structure PaymentIntentResponse where
  reference : String
  redirect_url : Option String
  status : String
deriving DecidableEq, Repr

/-- Handler `POST /donations/initiate` (main.py lines 128-146): INR range validation
per scholarship tier, insert of the donation document, synthesis of the
payment reference `EDC-<gateway>-<id>`, write-back of reference and status. -/
def initiate_donation (db : DB) (donation : Donation) :
    DB × Except ApiError PaymentIntentResponse :=
  let amt := donation.amount
  if donation.scholarship = .micro ∧ donation.currency = "INR" ∧
      ¬ (10 ≤ amt ∧ amt ≤ 5000) then
    (db, .error .invalidRange)
  else if donation.scholarship = .big ∧ donation.currency = "INR" ∧
      ¬ (10000 ≤ amt ∧ amt ≤ 1000000) then
    (db, .error .invalidRange)
  else
    let donation_id := db.nextId
    let db1 : DB :=
      { db with
          donations := db.donations ++ [(donation_id, donation.toRecord)]
          nextId := db.nextId + 1 }
    let payment_reference := "EDC-" ++ donation.gateway.str ++ "-" ++ toString donation_id
    let refUpd := updateById db1.donations donation_id
      (fun r => { r with payment_reference := some payment_reference, status := "created" })
    let db2 : DB := { db1 with donations := refUpd }
    (db2, .ok { reference := payment_reference, redirect_url := none, status := "created" })

/-- Webhook request body (main.py `WebhookUpdate`). -/
structure WebhookUpdate where
  reference : String
  status : String
  gateway_tx : Option String
  blockchain_tx : Option String
deriving DecidableEq, Repr

/-- The `$set` document `update.model_dump(exclude_none=True)` of the
webhook: always writes `reference` and `status`, writes `gateway_tx` and
`blockchain_tx` only when non-null. -/
def webhookSet (u : WebhookUpdate) (r : DonationRecord) : DonationRecord :=
  { r with
    reference := some u.reference
    status := u.status
    gateway_tx := match u.gateway_tx with | some g => some g | none => r.gateway_tx
    blockchain_tx := match u.blockchain_tx with | some b => some b | none => r.blockchain_tx }

/-- Handler `POST /donations/webhook` (main.py lines 156-163): look the donation up
by `payment_reference`, 404 when absent, otherwise merge the payload's
non-null fields into the record. -/
def donation_webhook (db : DB) (update : WebhookUpdate) :
    DB × Except ApiError Unit :=
  match db.donations.find? (fun p => p.2.payment_reference == some update.reference) with
  | none => (db, .error .notFound)
  | some d =>
      ({ db with donations := updateById db.donations d.1 (webhookSet update) }, .ok ())

/-- Case-insensitive substring containment, the semantics of the Mongo
filter `{"$regex": q, "$options": "i"}` for a free-text (metacharacter-free)
query string. -/
def containsCI (hay q : String) : Bool :=
  decide (q.toLower.data <:+: hay.toLower.data)

/-- The `$or` filter of the discovery endpoint: the query matches the
student's full name or school name case-insensitively. -/
def studentMatches (q : String) (s : Student) : Bool :=
  containsCI s.full_name q || containsCI s.school_name q

/-- Handler `GET /discover` (backend/main.py lines 110-115): when a non-empty query
is given, filter by the case-insensitive name/school match, else no filter;
return at most `limit` records. -/
def discover_students (db : DB) (q : Option String) (limit : Nat) :
    List (Nat × Student) :=
  let flt : Nat × Student → Bool :=
    match q with
    | some qs => if qs = "" then fun _ => true else fun p => studentMatches qs p.2
    | none => fun _ => true
  (db.students.filter flt).take limit

/-! ## Derived definitions used by the property statements -/

/-- The base-plus-KYC part of the score, named for reasoning purposes. -/
def kycBase (kyc : Option (Nat × KYCDocument)) : ℤ :=
  match kyc with
  | none => 10
  | some k =>
      match k.2.status with
      | .verified => 70
      | .pending => 50
      | .rejected => 40

/-- Store delta of persisting one more proof record. -/
def addProof (db : DB) (pid : Nat) (p : ProofSubmission) : DB :=
  { db with proofs := db.proofs ++ [(pid, p)] }

/-- Number of KYC documents stored for a given student. -/
def kycCount (db : DB) (sid : Nat) : Nat :=
  (db.kycdocs.filter (fun p => p.2.student_id == sid)).length

/-- Well-formedness of the KYC collection as Mongo maintains it: unique
`_id`s, ids below the fresh-id counter, at most one document per student. -/
def KycStoreWF (db : DB) : Prop :=
  (db.kycdocs.map Prod.fst).Nodup ∧
  (∀ i ∈ db.kycdocs.map Prod.fst, i < db.nextId) ∧
  ∀ sid, kycCount db sid ≤ 1

/-- The inclusive INR bound of the donation's chosen scholarship tier
(spec §3: micro [10, 5000], big [10000, 1000000]). -/
def tierRangeOk (d : Donation) : Prop :=
  (d.scholarship = .micro → 10 ≤ d.amount ∧ d.amount ≤ 5000) ∧
  (d.scholarship = .big → 10000 ≤ d.amount ∧ d.amount ≤ 1000000)

/-- Folding a sequence of KYC submissions into the store. -/
def submitAllKyc (db : DB) (ps : List KYCDocument) : DB :=
  ps.foldl (fun d p => (submit_kyc d p).1) db

/-! ## Concrete fixtures used by the witness theorems -/

def sampleStudent : Student :=
  { full_name := "Asha Rao"
    email := "asha@example.org"
    phone := none
    school_name := "Green Valley School"
    class_grade := some ("Grade 10")
    address := none
    country := some ("India")
    city := some ("Pune")
    location := none
    languages := ["hi", "en"]
    trust_score := 55
    kyc_status := .not_submitted }

def sampleKyc (st : KYCStatus) : KYCDocument :=
  { student_id := 0
    id_proof_url := "http://files/id"
    student_id_card_url := "http://files/card"
    school_letter_url := none
    selfie_url := "http://files/selfie"
    status := st
    remarks := none }

def sampleProof : ProofSubmission :=
  { student_id := 0
    title := "Books purchased"
    description := none
    amount := some 1200
    currency := some ("INR")
    files := ["http://files/receipt"]
    reviewed := false }

def sampleDonation : Donation :=
  { donor_name := some ("D")
    donor_email := none
    student_id := some 0
    scholarship := .micro
    amount := 5000
    currency := "INR"
    gateway := .upi
    status := .created
    payment_reference := none
    blockchain_tx := none
    country := some ("India") }

/-- Store holding just the sample student (id 0). -/
def dbStudent : DB := (create_student emptyDB sampleStudent).1

/-- Store holding the sample student with a verified KYC document. -/
def dbVerified : DB := (submit_kyc dbStudent (sampleKyc .verified)).1

/-- Store holding the sample student and one initiated donation (id 2,
reference EDC-upi-2). -/
def dbDonation : DB := (initiate_donation dbVerified sampleDonation).1

/-- A webhook payload for the sample donation's reference. -/
def sampleWebhook : WebhookUpdate :=
  { reference := "EDC-upi-2"
    status := "succeeded"
    gateway_tx := some ("gtx-1")
    blockchain_tx := none }

/-! ## Support lemmas about the store model -/

theorem pymin_eq_min (a b : ℤ) : pymin a b = min a b := (min_def a b).symm

theorem pymax_eq_max (a b : ℤ) : pymax a b = max a b := by
  rw [pymax, max_comm, max_def]

theorem updateById_map_fst {α : Type} (l : List (Nat × α)) (i : Nat) (f : α → α) :
    (updateById l i f).map Prod.fst = l.map Prod.fst := by
  induction l with
  | nil => rfl
  | cons hd tl ih =>
      obtain ⟨j, r⟩ := hd
      by_cases hj : j = i
      · simp [updateById, hj]
      · simp [updateById, hj, ih]

theorem updateById_append_fresh {α : Type} (l : List (Nat × α)) (i : Nat)
    (r : α) (f : α → α) (h : i ∉ l.map Prod.fst) :
    updateById (l ++ [(i, r)]) i f = l ++ [(i, f r)] := by
  induction l with
  | nil => simp [updateById]
  | cons hd tl ih =>
      obtain ⟨j, s⟩ := hd
      have hji : ¬ j = i := by
        intro he
        exact h (by simp [he])
      have htl : i ∉ tl.map Prod.fst := fun hm => h (by simp [hm])
      simp [updateById, hji, ih htl]

theorem find?_id_append_fresh {α : Type} (l : List (Nat × α)) (i : Nat) (r : α)
    (h : ∀ j ∈ l.map Prod.fst, j < i) :
    (l ++ [(i, r)]).find? (fun p => p.1 == i) = some (i, r) := by
  induction l with
  | nil => simp
  | cons hd tl ih =>
      obtain ⟨j, s⟩ := hd
      have hji : j < i := h j (by simp)
      have hne : ((fun p : Nat × α => p.1 == i) (j, s)) = false := by
        simp [Nat.ne_of_lt hji]
      have htl : ∀ j ∈ tl.map Prod.fst, j < i := fun j hj => h j (by simp [hj])
      rw [List.cons_append]
      simp only [List.find?_cons, hne]
      exact ih htl

/-! ## Trust score: formula, bounds, monotonicity (claims C1 and C6) -/

theorem trustFromParts_eq_spec (kyc : Option (Nat × KYCDocument)) (c : Nat) :
    trustFromParts kyc c = specTrustScore (kyc.map (fun k => k.2.status)) c := by
  rcases kyc with _ | ⟨i, k⟩
  · simp [trustFromParts, specTrustScore, mul_comm]
  · rcases k with ⟨sid, u1, u2, u3, u4, st, rem⟩
    rcases st <;> simp [trustFromParts, specTrustScore, mul_comm]

theorem trustFromParts_clamp_shape (kyc : Option (Nat × KYCDocument)) (c : Nat) :
    trustFromParts kyc c = pymax 0 (pymin 100 (kycBase kyc + pymin 30 ((c : ℤ) * 5))) := by
  rcases kyc with _ | ⟨i, k⟩
  · rfl
  · rcases hs : k.status <;> simp [trustFromParts, kycBase, hs]

theorem trustFromParts_nonneg (kyc : Option (Nat × KYCDocument)) (c : Nat) :
    0 ≤ trustFromParts kyc c := by
  rw [trustFromParts_clamp_shape, pymax_eq_max]
  exact le_max_left 0 _

theorem trustFromParts_le_100 (kyc : Option (Nat × KYCDocument)) (c : Nat) :
    trustFromParts kyc c ≤ 100 := by
  rw [trustFromParts_clamp_shape, pymax_eq_max, pymin_eq_min]
  exact max_le (by norm_num) (min_le_left _ _)

theorem trustFromParts_mono (kyc : Option (Nat × KYCDocument)) (c c' : Nat)
    (h : c ≤ c') : trustFromParts kyc c ≤ trustFromParts kyc c' := by
  rw [trustFromParts_clamp_shape, trustFromParts_clamp_shape,
    pymax_eq_max, pymax_eq_max, pymin_eq_min, pymin_eq_min,
    pymin_eq_min, pymin_eq_min]
  have hmul : ((c : ℤ)) * 5 ≤ ((c' : ℤ)) * 5 := by
    have hcc : (c : ℤ) ≤ (c' : ℤ) := by exact_mod_cast h
    linarith
  exact max_le_max le_rfl
    (min_le_min le_rfl (add_le_add le_rfl (min_le_min le_rfl hmul)))

/-- Claim C1: for every student record that exists, the trust score
computation returns exactly the spec's formula — base 10, +30 when a KYC
record exists, a further +30 when it is verified or +10 when pending
(nothing further when rejected), +5 per proof submission capped at +30, the
sum clamped to [0, 100]. -/
theorem trust_score_formula (db : DB) (student_id : Nat)
    (h : (db.students.find? (fun p => p.1 == student_id)).isSome = true) :
    compute_trust_score db student_id =
      .ok ((specTrustScore ((kycFor db student_id).map (fun k => k.2.status))
        (proofCountFor db student_id) : ℤ) : ℚ) := by
  rcases hf : db.students.find? (fun p => p.1 == student_id) with _ | st
  · rw [hf] at h
    simp at h
  · simp [compute_trust_score, hf, trustFromParts_eq_spec]

/-- Witness for C1 at a store holding a verified student: the specified
formula value is what the engine returns. -/
theorem trust_score_formula_witness :
    (dbVerified.students.find? (fun p => p.1 == 0)).isSome = true ∧
    compute_trust_score dbVerified 0 =
      .ok ((specTrustScore ((kycFor dbVerified 0).map (fun k => k.2.status))
        (proofCountFor dbVerified 0) : ℤ) : ℚ) :=
  ⟨by rfl, trust_score_formula dbVerified 0 (by rfl)⟩

/-- Claim C6: every computed trust score lies in [0, 100], and persisting one
more proof submission for the student never decreases the computed score. -/
theorem trust_score_bounded_monotone (db : DB) (student_id : Nat) (s : ℚ)
    (h : compute_trust_score db student_id = .ok s) :
    (0 ≤ s ∧ s ≤ 100) ∧
    ∀ (pid : Nat) (p : ProofSubmission) (s' : ℚ),
      p.student_id = student_id →
      compute_trust_score (addProof db pid p) student_id = .ok s' →
      s ≤ s' := by
  rcases hf : db.students.find? (fun p => p.1 == student_id) with _ | st
  · simp [compute_trust_score, hf] at h
  · have hs : s = ((trustFromParts (kycFor db student_id)
        (proofCountFor db student_id) : ℤ) : ℚ) := by
      simp [compute_trust_score, hf] at h
      exact h.symm
    constructor
    · constructor
      · rw [hs]
        exact_mod_cast trustFromParts_nonneg _ _
      · rw [hs]
        exact_mod_cast trustFromParts_le_100 _ _
    · intro pid p s' hp h'
      have hf' : (addProof db pid p).students.find? (fun q => q.1 == student_id)
          = some st := hf
      have hkyc : kycFor (addProof db pid p) student_id = kycFor db student_id := rfl
      have hcount : proofCountFor (addProof db pid p) student_id
          = proofCountFor db student_id + 1 := by
        simp [proofCountFor, addProof, List.filter_append, hp]
      have hs' : s' = ((trustFromParts (kycFor db student_id)
          (proofCountFor db student_id + 1) : ℤ) : ℚ) := by
        simp [compute_trust_score, hf', hkyc, hcount] at h'
        exact h'.symm
      rw [hs, hs']
      exact_mod_cast trustFromParts_mono _ _ _ (Nat.le_succ _)

/-- Witness for C6 at the verified sample store, where the computed score
is 70. -/
theorem trust_score_bounded_monotone_witness :
    compute_trust_score dbVerified 0 = .ok 70 ∧
    ((0 ≤ (70 : ℚ) ∧ (70 : ℚ) ≤ 100) ∧
      ∀ (pid : Nat) (p : ProofSubmission) (s' : ℚ),
        p.student_id = 0 →
        compute_trust_score (addProof dbVerified pid p) 0 = .ok s' →
        (70 : ℚ) ≤ s') :=
  ⟨by rfl, trust_score_bounded_monotone dbVerified 0 70 (by rfl)⟩

/-! ## Webhook lemmas (claims C4 and C5) -/

theorem webhookSet_payment_reference (u : WebhookUpdate) (r : DonationRecord) :
    (webhookSet u r).payment_reference = r.payment_reference := rfl

theorem webhookSet_idem (u : WebhookUpdate) (r : DonationRecord) :
    webhookSet u (webhookSet u r) = webhookSet u r := by
  cases hg : u.gateway_tx <;> cases hb : u.blockchain_tx <;>
    simp [webhookSet, hg, hb]

theorem webhook_find_update (u : WebhookUpdate) (l : List (Nat × DonationRecord))
    (i : Nat) (r : DonationRecord)
    (hnd : (l.map Prod.fst).Nodup)
    (hfind : l.find? (fun p => p.2.payment_reference == some u.reference)
      = some (i, r)) :
    (updateById l i (webhookSet u)).find?
        (fun p => p.2.payment_reference == some u.reference)
      = some (i, webhookSet u r) ∧
    updateById (updateById l i (webhookSet u)) i (webhookSet u)
      = updateById l i (webhookSet u) := by
  induction l generalizing i r with
  | nil => simp at hfind
  | cons hd tl ih =>
      obtain ⟨j, s⟩ := hd
      by_cases hp : ((fun p : Nat × DonationRecord =>
          p.2.payment_reference == some u.reference) (j, s)) = true
      · rw [@List.find?_cons_of_pos _ (fun p : Nat × DonationRecord =>
            p.2.payment_reference == some u.reference) (j, s) tl hp] at hfind
        obtain ⟨hj, hs⟩ : j = i ∧ s = r := by simpa using hfind
        subst hj
        subst hs
        have hupd : updateById ((j, s) :: tl) j (webhookSet u)
            = (j, webhookSet u s) :: tl := by
          simp [updateById]
        have hp' : ((fun p : Nat × DonationRecord =>
            p.2.payment_reference == some u.reference) (j, webhookSet u s)) = true := by
          simpa [webhookSet_payment_reference] using hp
        constructor
        · rw [hupd, @List.find?_cons_of_pos _ (fun p : Nat × DonationRecord =>
            p.2.payment_reference == some u.reference) (j, webhookSet u s) tl hp']
        · rw [hupd]
          simp [updateById, webhookSet_idem]
      · rw [@List.find?_cons_of_neg _ (fun p : Nat × DonationRecord =>
            p.2.payment_reference == some u.reference) (j, s) tl hp] at hfind
        have hmem : i ∈ tl.map Prod.fst := by
          have := List.mem_of_find?_eq_some hfind
          exact List.mem_map_of_mem Prod.fst this
        have hnd' : (tl.map Prod.fst).Nodup := (List.nodup_cons.mp hnd).2
        have hji : ¬ j = i := by
          intro he
          exact (List.nodup_cons.mp hnd).1 (he ▸ hmem)
        obtain ⟨ih1, ih2⟩ := ih i r hnd' hfind
        have hupd : updateById ((j, s) :: tl) i (webhookSet u)
            = (j, s) :: updateById tl i (webhookSet u) := by
          simp [updateById, hji]
        constructor
        · rw [hupd, @List.find?_cons_of_neg _ (fun p : Nat × DonationRecord =>
            p.2.payment_reference == some u.reference) (j, s)
            (updateById tl i (webhookSet u)) hp]
          exact ih1
        · rw [hupd]
          simp [updateById, hji, ih2]

/-- Claim C4: a webhook whose reference matches no stored donation's
payment_reference fails with NotFound and leaves the donation store (indeed
the whole store) unchanged. -/
theorem webhook_unknown_reference (db : DB) (u : WebhookUpdate)
    (h : ∀ r ∈ db.donations, r.2.payment_reference ≠ some u.reference) :
    donation_webhook db u = (db, .error .notFound) := by
  have hf : db.donations.find?
      (fun p => p.2.payment_reference == some u.reference) = none := by
    rw [List.find?_eq_none]
    intro a ha
    simp [h a ha]
  simp [donation_webhook, hf]

/-- Witness for C4: a webhook against the sample store with a reference no
donation carries. -/
theorem webhook_unknown_reference_witness :
    (∀ r ∈ dbDonation.donations,
      r.2.payment_reference ≠
        some ({ reference := "EDC-upi-99", status := "failed",
                gateway_tx := none, blockchain_tx := none : WebhookUpdate }).reference) ∧
    donation_webhook dbDonation
        { reference := "EDC-upi-99", status := "failed",
          gateway_tx := none, blockchain_tx := none }
      = (dbDonation, .error .notFound) :=
  ⟨by decide, webhook_unknown_reference dbDonation
    { reference := "EDC-upi-99", status := "failed",
      gateway_tx := none, blockchain_tx := none } (by decide)⟩

/-- Claim C5: applying the same webhook payload twice is idempotent — when a
first application succeeds and turns the store into `db'`, applying the
identical payload to `db'` succeeds and leaves `db'` unchanged. -/
theorem webhook_idempotent (db : DB) (u : WebhookUpdate) (db' : DB)
    (hnd : (db.donations.map Prod.fst).Nodup)
    (h : donation_webhook db u = (db', .ok ())) :
    donation_webhook db' u = (db', .ok ()) := by
  rcases hf : db.donations.find?
      (fun p => p.2.payment_reference == some u.reference) with _ | d
  · rw [donation_webhook, hf] at h
    simp at h
  · obtain ⟨i, r⟩ := d
    rw [donation_webhook, hf] at h
    have hdb' : db' = { db with donations := updateById db.donations i (webhookSet u) } := by
      have := (Prod.mk.injEq .. ▸ h).1
      exact this.symm
    obtain ⟨h1, h2⟩ := webhook_find_update u db.donations i r hnd hf
    subst hdb'
    rw [donation_webhook]
    simp only [h1, h2]

/-- Witness for C5: the sample webhook applied twice on the sample store. -/
theorem webhook_idempotent_witness :
    donation_webhook (donation_webhook dbDonation sampleWebhook).1 sampleWebhook
      = ((donation_webhook dbDonation sampleWebhook).1, .ok ()) :=
  webhook_idempotent dbDonation sampleWebhook
    (donation_webhook dbDonation sampleWebhook).1 (by decide) (by rfl)

/-! ## Donation initiation (claims C2 and C3) -/

/-- Claim C2: for INR donations, initiation succeeds exactly when the amount
lies within the chosen tier's inclusive bounds (micro [10, 5000], big
[10000, 1000000]) and otherwise fails with InvalidRange; non-INR donations
are never range-checked. -/
theorem initiate_donation_range (db : DB) (d : Donation) :
    (d.currency = "INR" →
      ((∃ resp, (initiate_donation db d).2 = .ok resp) ↔ tierRangeOk d) ∧
      (¬ tierRangeOk d → (initiate_donation db d).2 = .error .invalidRange)) ∧
    (d.currency ≠ "INR" → ∃ resp, (initiate_donation db d).2 = .ok resp) := by
  by_cases hc : d.currency = "INR"
  · rcases hs : d.scholarship
    · by_cases hr : 10 ≤ d.amount ∧ d.amount ≤ 5000
      · simp [initiate_donation, tierRangeOk, hs, hc, hr]
      · simp [initiate_donation, tierRangeOk, hs, hc, hr]
    · by_cases hr : 10000 ≤ d.amount ∧ d.amount ≤ 1000000
      · simp [initiate_donation, tierRangeOk, hs, hc, hr]
      · simp [initiate_donation, tierRangeOk, hs, hc, hr]
  · rcases hs : d.scholarship <;> simp [initiate_donation, tierRangeOk, hs, hc]

/-- Claim C3: a successful initiation returns reference
`EDC-<gateway>-<id>` with status "created" and a null redirect URL, and the
stored donation record carries that same payment reference. -/
theorem initiate_donation_reference (db : DB) (d : Donation) (db' : DB)
    (resp : PaymentIntentResponse)
    (hfresh : ∀ i ∈ db.donations.map Prod.fst, i < db.nextId)
    (h : initiate_donation db d = (db', .ok resp)) :
    resp.reference = "EDC-" ++ d.gateway.str ++ "-" ++ toString db.nextId ∧
    resp.status = "created" ∧
    resp.redirect_url = none ∧
    ∃ rec : DonationRecord,
      db'.donations.find? (fun p => p.1 == db.nextId) = some (db.nextId, rec) ∧
      rec.payment_reference = some resp.reference := by
  rw [initiate_donation] at h
  split_ifs at h with h1 h2
  · simp [Prod.ext_iff] at h
  · simp [Prod.ext_iff] at h
  · obtain ⟨hdb, hresp⟩ := Prod.mk.injEq .. ▸ h
    have hresp' : resp =
        { reference := "EDC-" ++ d.gateway.str ++ "-" ++ toString db.nextId
          redirect_url := none
          status := "created" } := by
      cases hresp
      rfl
    have hni : db.nextId ∉ db.donations.map Prod.fst := by
      intro hm
      exact lt_irrefl _ (hfresh _ hm)
    refine ⟨by rw [hresp'], by rw [hresp'], by rw [hresp'], ?_⟩
    refine ⟨{ d.toRecord with
        payment_reference :=
          some ("EDC-" ++ d.gateway.str ++ "-" ++ toString db.nextId)
        status := "created" }, ?_, by rw [hresp']⟩
    rw [← hdb]
    simp only
    rw [updateById_append_fresh _ _ _ _ hni]
    exact find?_id_append_fresh _ _ _ hfresh

/-- Witness for C3: initiating the sample donation on the sample store. -/
theorem initiate_donation_reference_witness :
    (∀ i ∈ dbVerified.donations.map Prod.fst, i < dbVerified.nextId) ∧
    ((initiate_donation dbVerified sampleDonation).2.toOption.map
        (fun resp => resp.reference)
      = some ("EDC-" ++ sampleDonation.gateway.str ++ "-" ++ toString dbVerified.nextId)) :=
  ⟨by decide,
    by
      have h := initiate_donation_reference dbVerified sampleDonation
        (initiate_donation dbVerified sampleDonation).1
        { reference := "EDC-upi-2", redirect_url := none, status := "created" }
        (by decide) (by rfl)
      rw [show (initiate_donation dbVerified sampleDonation).2
          = .ok { reference := "EDC-upi-2", redirect_url := none,
                  status := "created" } from rfl]
      exact congrArg some h.1⟩

/-! ## Student creation, proof submission, discovery (claims C9, C10, C8) -/

/-- Claim C9: whatever trust_score the request carried (validation accepts
any value in [0, 100]), the student record stored by creation has
trust_score 0. -/
theorem create_student_resets_trust (db : DB) (s : Student)
    (hfresh : ∀ i ∈ db.students.map Prod.fst, i < db.nextId)
    (hvalid : 0 ≤ s.trust_score ∧ s.trust_score ≤ 100) :
    (create_student db s).1.students.find?
        (fun p => p.1 == (create_student db s).2)
      = some ((create_student db s).2, { s with trust_score := 0 }) := by
  have hni : db.nextId ∉ db.students.map Prod.fst := fun hm =>
    lt_irrefl _ (hfresh _ hm)
  show (updateById (db.students ++ [(db.nextId, s)]) db.nextId
      (fun r => { r with trust_score := 0 })).find? (fun p => p.1 == db.nextId)
    = some (db.nextId, { s with trust_score := 0 })
  rw [updateById_append_fresh _ _ _ _ hni]
  exact find?_id_append_fresh _ _ _ hfresh

/-- Witness for C9: creating the sample student, whose requested trust_score
is 55, stores a record with trust_score 0. -/
theorem create_student_resets_trust_witness :
    ((∀ i ∈ emptyDB.students.map Prod.fst, i < emptyDB.nextId) ∧
      0 ≤ sampleStudent.trust_score ∧ sampleStudent.trust_score ≤ 100) ∧
    (create_student emptyDB sampleStudent).1.students.find?
        (fun p => p.1 == (create_student emptyDB sampleStudent).2)
      = some ((create_student emptyDB sampleStudent).2,
          { sampleStudent with trust_score := 0 }) :=
  ⟨⟨by decide, by decide, by decide⟩,
    create_student_resets_trust emptyDB sampleStudent (by decide)
      ⟨by decide, by decide⟩⟩

/-- Claim C10: proof submission always persists the proof (even for an
unknown student) and never raises — a failing trust recompute yields a null
trust score in the response instead. -/
theorem submit_proof_total (db : DB) (p : ProofSubmission) :
    (submit_proof db p).1.proofs = db.proofs ++ [(db.nextId, p)] ∧
    (submit_proof db p).2.1 = db.nextId ∧
    (db.students.find? (fun q => q.1 == p.student_id) = none →
      (submit_proof db p).2.2 = none) := by
  refine ⟨?_, ?_, ?_⟩
  · cases hc : compute_trust_score
        { db with proofs := db.proofs ++ [(db.nextId, p)], nextId := db.nextId + 1 }
        p.student_id <;>
      simp [submit_proof, hc]
  · cases hc : compute_trust_score
        { db with proofs := db.proofs ++ [(db.nextId, p)], nextId := db.nextId + 1 }
        p.student_id <;>
      simp [submit_proof, hc]
  · intro hfind
    have hc : compute_trust_score
        { db with proofs := db.proofs ++ [(db.nextId, p)], nextId := db.nextId + 1 }
        p.student_id = .error .notFound := by
      simp [compute_trust_score, hfind]
    simp [submit_proof, hc]

/-- Claim C8: discovery with no filter returns at most `limit` records, and
with a non-empty free-text query only students whose full name or school
name contains the query as a case-insensitive substring. -/
theorem discover_limit_and_matches (db : DB) (limit : Nat) :
    (discover_students db none limit).length ≤ limit ∧
    ∀ (q : String), ¬ q = "" →
      ∀ x ∈ discover_students db (some q) limit,
        q.toLower.data <:+: x.2.full_name.toLower.data ∨
        q.toLower.data <:+: x.2.school_name.toLower.data := by
  constructor
  · exact List.length_take_le _ _
  · intro q hq x hx
    rw [discover_students] at hx
    simp only [if_neg hq] at hx
    have hx' := List.mem_of_mem_take hx
    have hmem := (List.mem_filter.mp hx').2
    rw [studentMatches, Bool.or_eq_true] at hmem
    rcases hmem with hm | hm
    · exact Or.inl (of_decide_eq_true hm)
    · exact Or.inr (of_decide_eq_true hm)

/-! ## KYC upsert invariant (claim C7) -/

theorem submit_kyc_kycdocs_update (db : DB) (p : KYCDocument)
    (e : Nat × KYCDocument)
    (hf : db.kycdocs.find? (fun q => q.2.student_id == p.student_id) = some e) :
    (submit_kyc db p).1.kycdocs = updateById db.kycdocs e.1 (fun _ => p) ∧
    (submit_kyc db p).1.nextId = db.nextId := by
  rw [submit_kyc]
  simp only [hf]
  split <;> exact ⟨rfl, rfl⟩

theorem submit_kyc_kycdocs_insert (db : DB) (p : KYCDocument)
    (hf : db.kycdocs.find? (fun q => q.2.student_id == p.student_id) = none) :
    (submit_kyc db p).1.kycdocs = db.kycdocs ++ [(db.nextId, p)] ∧
    (submit_kyc db p).1.nextId = db.nextId + 1 := by
  rw [submit_kyc]
  simp only [hf]
  split <;> exact ⟨rfl, rfl⟩

theorem filter_updateById_const (l : List (Nat × KYCDocument)) (i : Nat)
    (r p : KYCDocument)
    (hnd : (l.map Prod.fst).Nodup)
    (hfind : l.find? (fun q => q.2.student_id == p.student_id) = some (i, r)) :
    ∀ sid, ((updateById l i (fun _ => p)).filter
        (fun q => q.2.student_id == sid)).length
      = (l.filter (fun q => q.2.student_id == sid)).length := by
  induction l generalizing i r with
  | nil => simp at hfind
  | cons hd tl ih =>
      obtain ⟨j, s⟩ := hd
      intro sid
      by_cases hp : ((fun q : Nat × KYCDocument =>
          q.2.student_id == p.student_id) (j, s)) = true
      · rw [@List.find?_cons_of_pos _ (fun q : Nat × KYCDocument =>
            q.2.student_id == p.student_id) (j, s) tl hp] at hfind
        obtain ⟨hj, hs⟩ : j = i ∧ s = r := by simpa using hfind
        subst hj
        subst hs
        have hps : s.student_id = p.student_id := by simpa using hp
        have hupd : updateById ((j, s) :: tl) j (fun _ => p)
            = (j, p) :: tl := by
          simp [updateById]
        rw [hupd]
        have hcond : (p.student_id == sid) = (s.student_id == sid) := by
          rw [hps]
        simp only [List.filter_cons]
        rw [hcond]
        split <;> simp
      · rw [@List.find?_cons_of_neg _ (fun q : Nat × KYCDocument =>
            q.2.student_id == p.student_id) (j, s) tl hp] at hfind
        have hmem : i ∈ tl.map Prod.fst := by
          have := List.mem_of_find?_eq_some hfind
          exact List.mem_map_of_mem Prod.fst this
        have hnd' : (tl.map Prod.fst).Nodup := (List.nodup_cons.mp hnd).2
        have hji : ¬ j = i := by
          intro he
          exact (List.nodup_cons.mp hnd).1 (he ▸ hmem)
        have hupd : updateById ((j, s) :: tl) i (fun _ => p)
            = (j, s) :: updateById tl i (fun _ => p) := by
          simp [updateById, hji]
        rw [hupd]
        simp only [List.filter_cons]
        have := ih i r hnd' hfind sid
        split <;> simp [this]

theorem submit_kyc_preserves_WF (db : DB) (p : KYCDocument)
    (hwf : KycStoreWF db) : KycStoreWF (submit_kyc db p).1 := by
  obtain ⟨hnd, hlt, hcnt⟩ := hwf
  rcases hf : db.kycdocs.find? (fun q => q.2.student_id == p.student_id)
    with _ | e
  · obtain ⟨hk, hn⟩ := submit_kyc_kycdocs_insert db p hf
    have hninew : db.nextId ∉ db.kycdocs.map Prod.fst := fun hm =>
      lt_irrefl _ (hlt _ hm)
    refine ⟨?_, ?_, ?_⟩
    · rw [hk]
      simp [List.nodup_append, hnd, List.disjoint_singleton, hninew]
    · intro i hi
      rw [hk] at hi
      rw [hn]
      simp only [List.map_append, List.mem_append] at hi
      rcases hi with hi | hi
      · exact Nat.lt_succ_of_lt (hlt _ hi)
      · simp at hi
        subst hi
        exact Nat.lt_succ_self _
    · intro sid
      rw [kycCount, hk, List.filter_append]
      by_cases hsid : (p.student_id == sid) = true
      · have hps' : p.student_id = sid := by simpa using hsid
        have hzero : db.kycdocs.filter (fun q => q.2.student_id == sid) = [] := by
          rw [List.filter_eq_nil_iff]
          intro a ha
          have hne := List.find?_eq_none.mp hf a ha
          rw [← hps']
          simpa using hne
        rw [hzero]
        simp [hsid]
      · have hone : ([(db.nextId, p)].filter
            (fun q : Nat × KYCDocument => q.2.student_id == sid)) = [] := by
          simp [List.filter_cons, hsid]
        rw [hone]
        simpa [kycCount] using hcnt sid
  · obtain ⟨hk, hn⟩ := submit_kyc_kycdocs_update db p e hf
    obtain ⟨i, r⟩ := e
    refine ⟨?_, ?_, ?_⟩
    · rw [hk, updateById_map_fst]
      exact hnd
    · intro j hj
      rw [hk, updateById_map_fst] at hj
      rw [hn]
      exact hlt _ hj
    · intro sid
      rw [kycCount, hk, filter_updateById_const db.kycdocs i r p hnd hf sid]
      exact hcnt sid

theorem submitAllKyc_WF (db : DB) (hwf : KycStoreWF db)
    (ps : List KYCDocument) : KycStoreWF (submitAllKyc db ps) := by
  induction ps generalizing db with
  | nil => exact hwf
  | cons q qs ih => exact ih _ (submit_kyc_preserves_WF db q hwf)

/-- Claim C7: KYC submission upserts by student_id — starting from any
well-formed store, any sequence of KYC submissions leaves at most one KYC
document per student, and a submission for a student who already has a
document rewrites it in place (the stored ids are unchanged, so nothing is
inserted). -/
theorem kyc_at_most_one (db : DB) (hwf : KycStoreWF db) :
    (∀ (ps : List KYCDocument) (sid : Nat),
      kycCount (submitAllKyc db ps) sid ≤ 1) ∧
    ∀ (p : KYCDocument),
      (db.kycdocs.find? (fun q => q.2.student_id == p.student_id)).isSome = true →
      (submit_kyc db p).1.kycdocs.map Prod.fst = db.kycdocs.map Prod.fst := by
  constructor
  · intro ps sid
    exact (submitAllKyc_WF db hwf ps).2.2 sid
  · intro p hsome
    rcases hf : db.kycdocs.find? (fun q => q.2.student_id == p.student_id)
      with _ | e
    · rw [hf] at hsome
      simp at hsome
    · rw [(submit_kyc_kycdocs_update db p e hf).1, updateById_map_fst]

/-- Witness for C7: two successive KYC submissions for student 0 on the
empty store leave a single KYC document. -/
theorem kyc_at_most_one_witness :
    KycStoreWF emptyDB ∧
    kycCount (submitAllKyc emptyDB [sampleKyc .pending, sampleKyc .verified]) 0 ≤ 1 := by
  have hwf : KycStoreWF emptyDB :=
    ⟨by simp [emptyDB], by simp [emptyDB], fun sid => by simp [kycCount, emptyDB]⟩
  exact ⟨hwf, (kyc_at_most_one emptyDB hwf).1 [sampleKyc .pending, sampleKyc .verified] 0⟩

end EduChain
